import Mathlib

/-!
Verification of the homework-status polling bot (`homework.py`) against its
natural-language specification.

The program is a single sequential loop: fetch homework records over HTTP,
validate the decoded JSON shape, derive a notification message from the first
record's status, deliver it over a messaging capability with consecutive-
duplicate suppression, sleep, repeat.

The embedding below translates the source functions into Lean:
decoded JSON values become the inductive `PyVal`; functions that raise Python
exceptions return `Except PyError _`; the loop body becomes the step function
`iterate` over an explicit `LoopState`, driven by an environment that supplies
each iteration's HTTP outcome and delivery outcome; `run` folds `iterate`
over a finite trace of such inputs, recording the observable events
(delivery attempts and log lines) of every iteration.
-/

set_option autoImplicit false

namespace HomeworkBot

/-- A decoded JSON value, as Python represents it after `response.json()`:
`None`, `bool`, `int`, `str`, `list`, `dict` (a `dict` is kept as an
association list of string keys; Python dict keys are unique, so first-match
lookup agrees with Python lookup). -/
inductive PyVal where
  | vNone : PyVal
  | vBool : Bool → PyVal
  | vInt : Int → PyVal
  | vStr : String → PyVal
  | vList : List PyVal → PyVal
  | vDict : List (String × PyVal) → PyVal

/-- Python truthiness (`bool(v)`): `None`, `False`, `0`, `""`, `[]` and
an empty dict are falsy, everything else is truthy. -/
def truthy : PyVal → Bool
  | PyVal.vNone => false
  | PyVal.vBool b => b
  | PyVal.vInt n => n != 0
  | PyVal.vStr s => s != ""
  | PyVal.vList xs => !xs.isEmpty
  | PyVal.vDict fs => !fs.isEmpty

/-- Value stored under key `k`, if the key is present (`k in d` view of a
Python dict). -/
def lookupField (fs : List (String × PyVal)) (k : String) : Option PyVal :=
  (fs.find? (fun p => p.1 == k)).map Prod.snd

/-- Python `d.get(k)`: the stored value, or `None` when the key is absent. -/
def dictGet (fs : List (String × PyVal)) (k : String) : PyVal :=
  (lookupField fs k).getD PyVal.vNone

/-- Python `d.get(k, default)`: the stored value (even if it is `None`),
or `default` when the key is absent. -/
def dictGetD (fs : List (String × PyVal)) (k : String) (dflt : PyVal) : PyVal :=
  (lookupField fs k).getD dflt

mutual

/-- Python `repr` of a `PyVal`, used by `str` on containers. String escaping
inside `repr` of a `str` is simplified to plain quoting (no claim interpolates
a container value, so only the string case is ever exercised by a theorem). -/
def pyRepr : PyVal → String
  | PyVal.vNone => "None"
  | PyVal.vBool true => "True"
  | PyVal.vBool false => "False"
  | PyVal.vInt n => toString n
  | PyVal.vStr s => "\x27" ++ s ++ "\x27"
  | PyVal.vList xs => "[" ++ String.intercalate ", " (pyReprList xs) ++ "]"
  | PyVal.vDict fs => "\x7b" ++ String.intercalate ", " (pyReprFields fs) ++ "\x7d"

/-- The `repr`s of a list's elements. -/
def pyReprList : List PyVal → List String
  | [] => []
  | x :: xs => pyRepr x :: pyReprList xs

/-- The `key: value` fragments of a dict's `repr`. -/
def pyReprFields : List (String × PyVal) → List String
  | [] => []
  | f :: fs => ("\x27" ++ f.1 ++ "\x27: " ++ pyRepr f.2) :: pyReprFields fs

end

/-- Python `str(v)`, as used by f-string interpolation: a `str` interpolates
as itself, every other value as its `repr`. -/
def pyStr : PyVal → String
  | PyVal.vStr s => s
  | v => pyRepr v

/-- Python type name, for the `AttributeError` message raised when `.get` is
called on a non-dict value. -/
def pyTypeName : PyVal → String
  | PyVal.vNone => "NoneType"
  | PyVal.vBool _ => "bool"
  | PyVal.vInt _ => "int"
  | PyVal.vStr _ => "str"
  | PyVal.vList _ => "list"
  | PyVal.vDict _ => "dict"

/-- The exceptions the program can raise.  `ApiRequestError` and `HTTPError`
are imported from an `exceptions` module that is not part of the sources;
Modelled from the spec: the error taxonomy of §7 describes them as typed
errors (RequestError / BadStatusError) carrying a diagnostic message, which is
exactly how `get_api_answer` constructs and raises them. -/
inductive PyError where
  | apiRequestError : String → PyError
  | httpError : String → PyError
  | typeError : String → PyError
  | keyError : String → PyError
  | attributeError : String → PyError
  deriving DecidableEq, Repr

/-- Python `str(error)`, as interpolated into the loop's failure message.
For the custom exceptions and `TypeError` this is the message itself;
`str` of a `KeyError` is the `repr` of its argument, i.e. the message wrapped
in single quotes (a genuine Python quirk the dedup comparison sees). -/
def errStr : PyError → String
  | PyError.apiRequestError m => m
  | PyError.httpError m => m
  | PyError.typeError m => m
  | PyError.keyError m => "\x27" ++ m ++ "\x27"
  | PyError.attributeError m => m

/-- Seconds between iterations (`RETRY_PERIOD = 600`). -/
def RETRY_PERIOD : Nat := 600

/-- The fixed status-to-verdict dictionary `HOMEWORK_VERDICTS`. -/
def HOMEWORK_VERDICTS : List (String × String) :=
  [("approved", "Работа проверена: ревьюеру всё понравилось. Ура!"),
   ("reviewing", "Работа взята на проверку ревьюером."),
   ("rejected", "Работа проверена: у ревьюера есть замечания.")]

/-- Membership test plus access, `status in HOMEWORK_VERDICTS.keys()` followed
by `HOMEWORK_VERDICTS[status]`.  A non-string value equals no string key, so it
is not a member. -/
def verdictFor : PyVal → Option String
  | PyVal.vStr s => (HOMEWORK_VERDICTS.find? (fun p => p.1 == s)).map Prod.snd
  | _ => Option.none

/-- Result of `check_tokens()`: Python `all` over the truthiness of the three
module-level tokens, each an `os.getenv` result (`None` when absent, possibly
the empty string when set but empty).  The globals become parameters. -/
def check_tokens (practicum telegramTok chatId : Option String) : Bool :=
  [practicum.getD "" != "", telegramTok.getD "" != "", chatId.getD "" != ""].all
    (fun b => b)

/-- What the environment hands `get_api_answer` for one HTTP request: either
`requests.get` raised a `RequestException` (with its `str`), or it produced a
response with a status code, text, headers and decoded JSON body.  The
`from_date=<timestamp>` query parameter only shapes the outgoing request, so
it is absorbed into the choice of outcome. -/
inductive HttpOutcome where
  | exn : String → HttpOutcome
  | resp : Nat → String → String → PyVal → HttpOutcome

/-- Embedding of `get_api_answer`: a transport failure is re-raised as
`ApiRequestError`; a response with a status code other than 200 raises
`HTTPError` with a message carrying the code, the response text and the
response headers; otherwise the decoded body is returned. -/
def get_api_answer : HttpOutcome → Except PyError PyVal
  | HttpOutcome.exn e =>
      Except.error (PyError.apiRequestError
        ("Ошибка при отправке запроса к api: " ++ e))
  | HttpOutcome.resp code text headers body =>
      if ¬ code = 200 then
        Except.error (PyError.httpError
          ("Получен код, отличный от 200: " ++ toString code ++ ". " ++
           "Текст ответа: " ++ text ++ ", " ++
           "Заголовок ответа: " ++ headers ++ ", "))
      else Except.ok body

/-- Embedding of `check_response`: the body must be a dict, and
`response.get('homeworks')` must be a list (so a missing key, which `get`
turns into `None`, also fails); the list is returned. -/
def check_response (response : PyVal) : Except PyError (List PyVal) :=
  match response with
  | PyVal.vDict fs =>
      match dictGet fs "homeworks" with
      | PyVal.vList xs => Except.ok xs
      | _ => Except.error (PyError.typeError "Данные пришли не в виду списка.")
  | _ => Except.error
      (PyError.typeError "Получен иной тип данных, отличный от словаря.")

/-- Embedding of `parse_status`: `.get` each field, test it by truthiness
(`if not homework_name`), require the status to be a key of
`HOMEWORK_VERDICTS`, and build the notification string.  Calling `.get` on a
non-dict element raises `AttributeError`, as in Python. -/
def parse_status (homeworks : PyVal) : Except PyError String :=
  match homeworks with
  | PyVal.vDict fs =>
      let homework_name := dictGet fs "homework_name"
      if ¬ truthy homework_name then
        Except.error (PyError.keyError "Отсутствует ключ названия домашней работы!")
      else
        let homework_status := dictGet fs "status"
        if ¬ truthy homework_status then
          Except.error (PyError.keyError "Не найден ключ статуса домашней работы!")
        else
          match verdictFor homework_status with
          | Option.none =>
              Except.error (PyError.keyError "Получен неожиданный статус домашней работы!")
          | some verdict =>
              Except.ok ("Изменился статус проверки работы \"" ++
                pyStr homework_name ++ "\". " ++ verdict)
  | v => Except.error (PyError.attributeError
      ("\x27" ++ pyTypeName v ++ "\x27 object has no attribute \x27get\x27"))

/-- Outcome of one `bot.send_message` call: it either succeeds or raises a
`TelegramError`. -/
inductive SendOutcome where
  | sent : SendOutcome
  | telegramError : SendOutcome
  deriving DecidableEq

/-- Observable events of one loop iteration: a delivery attempt handed to
`send_message`, and log lines. -/
inductive Event where
  | sendAttempt : String → Event
  | logDebug : String → Event
  | logError : String → Event
  deriving DecidableEq, Repr

/-- Embedding of `send_message`: attempt delivery; on success log at debug
level, on `TelegramError` log at error level.  The exception is swallowed, so
the function always returns (no `Except`) and touches no loop state. -/
def send_message (d : SendOutcome) (message : String) : List Event :=
  match d with
  | SendOutcome.sent =>
      [Event.sendAttempt message,
       Event.logDebug "Сообщение в телеграм успешно отправлено."]
  | SendOutcome.telegramError =>
      [Event.sendAttempt message,
       Event.logError "Не получилось отправить сообщение."]

/-- The loop's mutable state: the poll-window cursor `timestamp` (a `PyVal`,
since `response.get('current_date', timestamp)` stores whatever the server
sent) and the dedup register `messages` (the spec's LastMessage). -/
structure LoopState where
  timestamp : PyVal
  messages : String

/-- The fixed "no updates" notification of the empty-homeworks branch. -/
def updateMessage : String := "Нет обновлений статуса домашней работы."

/-- Embedding of the `except Exception` block of `main`: format the failure
message; if it equals `messages` only log it, otherwise set `messages` to it,
attempt delivery, and then clear `messages` to the empty string. -/
def handleError (st : LoopState) (d : SendOutcome) (e : PyError) :
    LoopState × List Event :=
  let message := "Сбой в работе программы: " ++ errStr e
  if st.messages = message then (st, [Event.logError message])
  else ({ st with messages := "" }, send_message d message)

/-- One pass of the `while True` body of `main`, up to the `finally` sleep:
fetch, validate, advance the cursor with `response.get('current_date',
timestamp)`, derive and deduplicate the message; any raised exception falls
through to `handleError` with the state as of the raise point.  The non-dict
default of the cursor update is unreachable, because `check_response` only
succeeds on a dict. -/
def iterate (st : LoopState) (o : HttpOutcome) (d : SendOutcome) :
    LoopState × List Event :=
  match get_api_answer o with
  | Except.error e => handleError st d e
  | Except.ok response =>
    match check_response response with
    | Except.error e => handleError st d e
    | Except.ok homeworks =>
      let ts := match response with
        | PyVal.vDict fs => dictGetD fs "current_date" st.timestamp
        | _ => st.timestamp
      let st1 : LoopState := { st with timestamp := ts }
      match homeworks with
      | hw :: _ =>
        match parse_status hw with
        | Except.error e => handleError st1 d e
        | Except.ok status =>
          if st1.messages ≠ status then
            ({ st1 with messages := status }, send_message d status)
          else (st1, [])
      | [] =>
          if st1.messages ≠ updateMessage then
            ({ st1 with messages := updateMessage }, send_message d updateMessage)
          else (st1, [])

/-- The loop run over a finite trace of environment inputs, one
`(HttpOutcome, SendOutcome)` pair per iteration; returns the final state and
each iteration's events.  The loop itself has no exit, so every input in the
trace yields exactly one iteration. -/
def run (st : LoopState) : List (HttpOutcome × SendOutcome) →
    LoopState × List (List Event)
  | [] => (st, [])
  | (o, d) :: rest =>
      let r := iterate st o d
      let rr := run r.1 rest
      (rr.1, r.2 :: rr.2)

/-- Result of `main`: either `sys.exit` before the loop (missing credentials)
or the loop ran over the supplied trace. -/
inductive MainResult where
  | exited : String → MainResult
  | ran : LoopState × List (List Event) → MainResult

/-- Embedding of `main`: abort with the exit message if `check_tokens` fails,
otherwise run the loop from cursor `int(time.time())` (the start time, an
environment input) and empty `messages`. -/
def main (practicum telegramTok chatId : Option String) (startTime : Int)
    (inputs : List (HttpOutcome × SendOutcome)) : MainResult :=
  if ¬ check_tokens practicum telegramTok chatId then
    MainResult.exited "Необходимо добавить переменные окружения!"
  else
    MainResult.ran (run { timestamp := PyVal.vInt startTime, messages := "" } inputs)

/-- The message the success path of an iteration derives from an HTTP outcome
(`None` when the iteration raises instead): the `parse_status` string of the
first record, or the fixed "no updates" string for an empty list.  It depends
only on the outcome, not on the loop state. -/
def successMessage (o : HttpOutcome) : Option String :=
  match get_api_answer o with
  | Except.error _ => Option.none
  | Except.ok response =>
    match check_response response with
    | Except.error _ => Option.none
    | Except.ok homeworks =>
      match homeworks with
      | [] => some updateMessage
      | hw :: _ =>
        match parse_status hw with
        | Except.error _ => Option.none
        | Except.ok s => some s

/-- Fetch-then-validate composition, for stating cursor claims: the decoded
body, provided both `get_api_answer` and `check_response` succeed. -/
def fetchValidate (o : HttpOutcome) : Except PyError PyVal :=
  match get_api_answer o with
  | Except.error e => Except.error e
  | Except.ok response =>
    match check_response response with
    | Except.error e => Except.error e
    | Except.ok _ => Except.ok response

/-- Delivery attempts among a single iteration's events. -/
def isSendEvent : Event → Bool
  | Event.sendAttempt _ => true
  | _ => false

/-- Total number of delivery attempts across a run's iterations. -/
def sendCount (evss : List (List Event)) : Nat :=
  (evss.map (fun evs => (evs.filter isSendEvent).length)).sum

/-- A well-formed record: name `X`, status `approved`. -/
def recX : PyVal :=
  PyVal.vDict [("homework_name", PyVal.vStr "X"), ("status", PyVal.vStr "approved")]

/-- A 200 outcome whose body has an empty `homeworks` list and a
`current_date`. -/
def emptyOutcome : HttpOutcome :=
  HttpOutcome.resp 200 "" ""
    (PyVal.vDict [("homeworks", PyVal.vList []), ("current_date", PyVal.vInt 7)])

/-- A record whose `status` is the unrecognized string `unknown`. -/
def unknownRecord (name : String) : PyVal :=
  PyVal.vDict [("homework_name", PyVal.vStr name), ("status", PyVal.vStr "unknown")]

/-- A 200 outcome whose first (and only) record has status `unknown`. -/
def unknownOutcome (name : String) : HttpOutcome :=
  HttpOutcome.resp 200 "" ""
    (PyVal.vDict [("homeworks", PyVal.vList [unknownRecord name]),
      ("current_date", PyVal.vInt 111)])

/-- The loop's failure message for the unrecognized-status `KeyError`
(`str` of a `KeyError` wraps its argument in quotes). -/
def unknownFailMsg : String :=
  "Сбой в работе программы: \x27Получен неожиданный статус домашней работы!\x27"

/-- A start state: cursor `0`, empty dedup register, as at loop entry. -/
def st0 : LoopState := { timestamp := PyVal.vInt 0, messages := "" }

/-! ## Helper lemmas -/

/-- The error branch keeps the cursor untouched. -/
theorem handleError_timestamp (st : LoopState) (d : SendOutcome) (e : PyError) :
    (handleError st d e).1.timestamp = st.timestamp := by
  by_cases h : st.messages = "Сбой в работе программы: " ++ errStr e <;>
    simp [handleError, h]

/-- The state produced by the error branch does not depend on the delivery
outcome. -/
theorem handleError_fst (st : LoopState) (d d' : SendOutcome) (e : PyError) :
    (handleError st d e).1 = (handleError st d' e).1 := by
  by_cases h : st.messages = "Сбой в работе программы: " ++ errStr e <;>
    simp [handleError, h]

/-- Exactly one delivery attempt, of the given message, hides in
`send_message`'s events, whatever the delivery outcome. -/
theorem send_message_filter (d : SendOutcome) (m : String) :
    (send_message d m).filter isSendEvent = [Event.sendAttempt m] := by
  cases d <;> simp [send_message, isSendEvent]

/-- A transport failure makes the whole iteration run the error branch on the
unchanged state. -/
theorem iterate_error_fetch (st : LoopState) (o : HttpOutcome) (d : SendOutcome)
    (e : PyError) (hga : get_api_answer o = Except.error e) :
    iterate st o d = handleError st d e := by
  simp [iterate, hga]

/-- A validation failure makes the whole iteration run the error branch on the
unchanged state. -/
theorem iterate_error_check (st : LoopState) (o : HttpOutcome) (d : SendOutcome)
    (response : PyVal) (e : PyError)
    (hga : get_api_answer o = Except.ok response)
    (hcr : check_response response = Except.error e) :
    iterate st o d = handleError st d e := by
  simp [iterate, hga, hcr]

/-- A record-parsing failure runs the error branch on the state whose cursor
was already advanced by `response.get('current_date', timestamp)`. -/
theorem iterate_error_parse (st : LoopState) (o : HttpOutcome) (d : SendOutcome)
    (fs : List (String × PyVal)) (hw : PyVal) (rest : List PyVal) (e : PyError)
    (hga : get_api_answer o = Except.ok (PyVal.vDict fs))
    (hcr : check_response (PyVal.vDict fs) = Except.ok (hw :: rest))
    (hps : parse_status hw = Except.error e) :
    iterate st o d =
      handleError { st with timestamp := dictGetD fs "current_date" st.timestamp } d e := by
  simp [iterate, hga, hcr, hps]

/-- A successful validation forces the response body to be a dict whose
`homeworks` entry is the returned list. -/
theorem check_response_ok_dict (response : PyVal) (xs : List PyVal)
    (h : check_response response = Except.ok xs) :
    ∃ fs, response = PyVal.vDict fs ∧ dictGet fs "homeworks" = PyVal.vList xs := by
  cases response with
  | vDict fs =>
    refine ⟨fs, rfl, ?_⟩
    cases hd : dictGet fs "homeworks" <;> simp [check_response, hd] at h
    simp [h]
  | vNone => simp [check_response] at h
  | vBool b => simp [check_response] at h
  | vInt n => simp [check_response] at h
  | vStr s => simp [check_response] at h
  | vList l => simp [check_response] at h

/-- After a successful fetch and validation the iteration's final cursor is
`response.get('current_date', timestamp)`, on every later branch. -/
theorem iterate_timestamp_ok (st : LoopState) (o : HttpOutcome) (d : SendOutcome)
    (fs : List (String × PyVal)) (hws : List PyVal)
    (hga : get_api_answer o = Except.ok (PyVal.vDict fs))
    (hcr : check_response (PyVal.vDict fs) = Except.ok hws) :
    (iterate st o d).1.timestamp = dictGetD fs "current_date" st.timestamp := by
  cases hws with
  | nil =>
    by_cases he : st.messages = updateMessage <;> simp [iterate, hga, hcr, he]
  | cons hw rest =>
    cases hps : parse_status hw with
    | error e =>
      rw [iterate_error_parse st o d fs hw rest e hga hcr hps, handleError_timestamp]
    | ok status =>
      by_cases he : st.messages = status <;> simp [iterate, hga, hcr, hps, he]

/-- On a success-path iteration the dedup register ends equal to the derived
message, and a delivery attempt of exactly that message happens precisely when
it differs from the previous register value. -/
theorem iterate_success (st : LoopState) (o : HttpOutcome) (d : SendOutcome)
    (m : String) (h : successMessage o = some m) :
    (iterate st o d).1.messages = m ∧
    (iterate st o d).2.filter isSendEvent =
      (if st.messages = m then [] else [Event.sendAttempt m]) := by
  cases hga : get_api_answer o with
  | error e => simp [successMessage, hga] at h
  | ok response =>
    cases hcr : check_response response with
    | error e => simp [successMessage, hga, hcr] at h
    | ok homeworks =>
      cases homeworks with
      | nil =>
        have hm : updateMessage = m := by
          simpa [successMessage, hga, hcr] using h
        subst hm
        by_cases he : st.messages = updateMessage <;>
          simp [iterate, hga, hcr, he, send_message_filter]
      | cons hw rest =>
        cases hps : parse_status hw with
        | error e => simp [successMessage, hga, hcr, hps] at h
        | ok status =>
          have hm : status = m := by
            simpa [successMessage, hga, hcr, hps] using h
          subst hm
          by_cases he : st.messages = status <;>
            simp [iterate, hga, hcr, hps, he, send_message_filter]

/-- The state after an iteration does not depend on the delivery outcome: a
failed delivery leaves exactly the state a successful one would. -/
theorem iterate_fst (st : LoopState) (o : HttpOutcome) (d d' : SendOutcome) :
    (iterate st o d).1 = (iterate st o d').1 := by
  cases hga : get_api_answer o with
  | error e =>
    rw [iterate_error_fetch st o d e hga, iterate_error_fetch st o d' e hga]
    exact handleError_fst st d d' e
  | ok response =>
    cases hcr : check_response response with
    | error e =>
      rw [iterate_error_check st o d response e hga hcr,
        iterate_error_check st o d' response e hga hcr]
      exact handleError_fst st d d' e
    | ok homeworks =>
      obtain ⟨fs, rfl, -⟩ := check_response_ok_dict response homeworks hcr
      cases homeworks with
      | nil =>
        by_cases he : st.messages = updateMessage <;> simp [iterate, hga, hcr, he]
      | cons hw rest =>
        cases hps : parse_status hw with
        | error e =>
          rw [iterate_error_parse st o d fs hw rest e hga hcr hps,
            iterate_error_parse st o d' fs hw rest e hga hcr hps]
          exact handleError_fst _ d d' e
        | ok status =>
          by_cases he : st.messages = status <;> simp [iterate, hga, hcr, hps, he]

/-- Every environment input yields exactly one iteration: the loop never
terminates early. -/
theorem run_length (st : LoopState) (inputs : List (HttpOutcome × SendOutcome)) :
    (run st inputs).2.length = inputs.length := by
  induction inputs generalizing st with
  | nil => rfl
  | cons p rest ih => cases p with | mk o d => simp [run, ih]

/-- Delivery attempts of a run, unfolded one iteration. -/
theorem sendCount_cons (evs : List Event) (evss : List (List Event)) :
    sendCount (evs :: evss) = (evs.filter isSendEvent).length + sendCount evss := by
  simp [sendCount]

/-- Once the dedup register already holds the message every remaining
same-message iteration derives, no delivery is ever attempted again. -/
theorem run_success_zero (m : String) (st : LoopState)
    (inputs : List (HttpOutcome × SendOutcome))
    (hst : st.messages = m) (h : ∀ p ∈ inputs, successMessage p.1 = some m) :
    sendCount (run st inputs).2 = 0 := by
  induction inputs generalizing st with
  | nil => rfl
  | cons p rest ih =>
    cases p with | mk o d =>
    have h1 := iterate_success st o d m (h _ (List.mem_cons_self _ _))
    have h2 : ∀ q ∈ rest, successMessage q.1 = some m :=
      fun q hq => h q (List.mem_cons_of_mem _ hq)
    simp only [run, sendCount_cons]
    rw [h1.2, if_pos hst]
    simpa using ih (iterate st o d).1 h1.1 h2

/-! ## Claim theorems -/

/-- C4: response validation raises its typed "unexpected shape" `TypeError`
exactly when the decoded body is not a dict or its `homeworks` entry is
missing or not a list; a present (possibly empty) list is returned without
error. -/
theorem C4_check_response :
    (∀ response : PyVal,
      (∃ msg, check_response response = Except.error (PyError.typeError msg)) ↔
        ¬ ∃ fs xs, response = PyVal.vDict fs ∧
            lookupField fs "homeworks" = some (PyVal.vList xs)) ∧
    (∀ fs xs, lookupField fs "homeworks" = some (PyVal.vList xs) →
        check_response (PyVal.vDict fs) = Except.ok xs) ∧
    check_response (PyVal.vDict [("homeworks", PyVal.vList [])]) = Except.ok [] := by
  refine ⟨?_, ?_, rfl⟩
  · intro response
    cases response with
    | vDict fs =>
      cases hl : lookupField fs "homeworks" with
      | none => simp [check_response, dictGet, hl]
      | some v =>
        cases v <;> simp [check_response, dictGet, hl]
    | vNone => simp [check_response]
    | vBool b => simp [check_response]
    | vInt n => simp [check_response]
    | vStr s => simp [check_response]
    | vList l => simp [check_response]
  · intro fs xs hl
    simp [check_response, dictGet, hl]

/-- C5 counterexample: the record whose `homework_name` key is present but
bound to the empty string and whose status is `approved` does not yield the
claimed notification string — `parse_status` raises the missing-name
`KeyError` instead, because presence is tested by truthiness. -/
theorem C5_counterexample :
    parse_status (PyVal.vDict
        [("homework_name", PyVal.vStr ""), ("status", PyVal.vStr "approved")]) =
      Except.error (PyError.keyError "Отсутствует ключ названия домашней работы!") ∧
    (parse_status (PyVal.vDict
        [("homework_name", PyVal.vStr ""), ("status", PyVal.vStr "approved")])).toOption =
      Option.none :=
  ⟨rfl, rfl⟩

/-- C5 (amended): for any record whose `homework_name` is a present non-empty
string and whose `status` is a key of the fixed 3-element verdict dictionary,
`parse_status` returns exactly
`Изменился статус проверки работы "<name>". <verdict-text>`. -/
theorem C5_message_format (fs : List (String × PyVal)) (name status verdict : String)
    (hn : lookupField fs "homework_name" = some (PyVal.vStr name))
    (hne : name ≠ "")
    (hs : lookupField fs "status" = some (PyVal.vStr status))
    (hv : (HOMEWORK_VERDICTS.find? (fun p => p.1 == status)).map Prod.snd =
      some verdict) :
    parse_status (PyVal.vDict fs) =
      Except.ok ("Изменился статус проверки работы \"" ++ name ++ "\". " ++ verdict) := by
  have hsne : status ≠ "" := by
    cases hfind : HOMEWORK_VERDICTS.find? (fun p => p.1 == status) with
    | none => rw [hfind] at hv; cases hv
    | some p =>
      have hmem := List.mem_of_find?_eq_some hfind
      have hbeq := List.find?_some hfind
      have hps : p.1 = status := by simpa using hbeq
      subst hps
      simp [HOMEWORK_VERDICTS] at hmem
      rcases hmem with rfl | rfl | rfl <;> decide
  simp [parse_status, dictGet, hn, hs, truthy, hne, hsne, verdictFor, hv, pyStr]

/-- C5 witness: the spec's concrete example, name `X` with status `approved`. -/
theorem C5_message_format_witness :
    parse_status recX = Except.ok
      "Изменился статус проверки работы \"X\". Работа проверена: ревьюеру всё понравилось. Ура!" :=
  C5_message_format
    [("homework_name", PyVal.vStr "X"), ("status", PyVal.vStr "approved")]
    "X" "approved" "Работа проверена: ревьюеру всё понравилось. Ура!"
    rfl (by decide) rfl rfl

/-- C7: `check_tokens` is true exactly when all three credentials are set and
non-empty, and whenever it is false `main` exits before the loop with the
startup message, running no iteration. -/
theorem C7_check_tokens (practicum telegramTok chatId : Option String) :
    (check_tokens practicum telegramTok chatId = true ↔
      ((∃ s, practicum = some s ∧ s ≠ "") ∧
       (∃ s, telegramTok = some s ∧ s ≠ "") ∧
       (∃ s, chatId = some s ∧ s ≠ ""))) ∧
    (check_tokens practicum telegramTok chatId = false →
      ∀ startTime inputs, main practicum telegramTok chatId startTime inputs =
        MainResult.exited "Необходимо добавить переменные окружения!") := by
  constructor
  · cases practicum <;> cases telegramTok <;> cases chatId <;>
      simp [check_tokens]
  · intro h startTime inputs
    simp [main, h]

/-- C7 witness: three set, non-empty credentials pass the check; a missing
first credential makes `main` exit before the loop. -/
theorem C7_check_tokens_witness :
    check_tokens (some "a") (some "b") (some "c") = true ∧
    main Option.none (some "b") (some "c") 0 [] =
      MainResult.exited "Необходимо добавить переменные окружения!" :=
  ⟨(C7_check_tokens (some "a") (some "b") (some "c")).1.mpr
      ⟨⟨"a", rfl, by decide⟩, ⟨"b", rfl, by decide⟩, ⟨"c", rfl, by decide⟩⟩,
    (C7_check_tokens Option.none (some "b") (some "c")).2 rfl 0 []⟩

/-- C10: `parse_status` tests each field by truthiness, not key membership:
a field present but bound to a falsy value raises exactly the missing-key
`KeyError` that an absent key raises — for `homework_name`, and likewise for
`status` once the name is truthy. -/
theorem C10_truthiness (fs : List (String × PyVal)) :
    ((∀ v, lookupField fs "homework_name" = some v → truthy v = false →
        parse_status (PyVal.vDict fs) =
          Except.error (PyError.keyError "Отсутствует ключ названия домашней работы!")) ∧
     (lookupField fs "homework_name" = Option.none →
        parse_status (PyVal.vDict fs) =
          Except.error (PyError.keyError "Отсутствует ключ названия домашней работы!"))) ∧
    ((∀ v w, lookupField fs "homework_name" = some v → truthy v = true →
        lookupField fs "status" = some w → truthy w = false →
        parse_status (PyVal.vDict fs) =
          Except.error (PyError.keyError "Не найден ключ статуса домашней работы!")) ∧
     (∀ v, lookupField fs "homework_name" = some v → truthy v = true →
        lookupField fs "status" = Option.none →
        parse_status (PyVal.vDict fs) =
          Except.error (PyError.keyError "Не найден ключ статуса домашней работы!"))) := by
  refine ⟨⟨?_, ?_⟩, ?_, ?_⟩
  · intro v hv htr
    simp [parse_status, dictGet, hv, htr]
  · intro hv
    simp [parse_status, dictGet, hv, truthy]
  · intro v w hv htr hw hwf
    simp [parse_status, dictGet, hv, htr, hw, hwf]
  · intro v hv htr hw
    simp [parse_status, dictGet, hv, htr, hw,
      show truthy PyVal.vNone = false from rfl]

/-- C4 witness: a dict whose `homeworks` entry is a one-element list validates
to exactly that list. -/
theorem C4_check_response_witness :
    check_response (PyVal.vDict [("homeworks", PyVal.vList [PyVal.vInt 1])]) =
      Except.ok [PyVal.vInt 1] :=
  C4_check_response.2.1 [("homeworks", PyVal.vList [PyVal.vInt 1])] [PyVal.vInt 1] rfl

/-- C1 counterexample: with an empty dedup register, two consecutive
iterations raising the same unrecognized-status error both attempt to send
the identical error notification — the second occurrence is sent again, not
merely logged, because the register is cleared right after each error send. -/
theorem C1_counterexample :
    (run st0 [(unknownOutcome "X", SendOutcome.sent),
        (unknownOutcome "X", SendOutcome.sent)]).2 =
      [[Event.sendAttempt unknownFailMsg,
        Event.logDebug "Сообщение в телеграм успешно отправлено."],
       [Event.sendAttempt unknownFailMsg,
        Event.logDebug "Сообщение в телеграм успешно отправлено."]] := by
  rfl

/-- C1 (amended): a record with status `unknown` makes `parse_status` raise
the malformed-record `KeyError`, and no status message is sent for that
record; but across repeated iterations producing this same error, an error
notification is attempted on every occurrence, not only the first: each
iteration's delivery attempts are exactly the one failure message, because
clearing the register after an error send defeats the dedup check for
repeated identical errors. -/
theorem C1_repeated_error (name : String) (st : LoopState) (d : SendOutcome)
    (n : Nat) (hn : name ≠ "") (hm : st.messages ≠ unknownFailMsg) :
    parse_status (unknownRecord name) =
      Except.error (PyError.keyError "Получен неожиданный статус домашней работы!") ∧
    (run st (List.replicate (n + 1) (unknownOutcome name, d))).2.map
        (fun evs => evs.filter isSendEvent) =
      List.replicate (n + 1) [Event.sendAttempt unknownFailMsg] := by
  have hps : parse_status (unknownRecord name) =
      Except.error (PyError.keyError "Получен неожиданный статус домашней работы!") := by
    simp [parse_status, unknownRecord, dictGet, lookupField, List.find?, truthy,
      hn, verdictFor, HOMEWORK_VERDICTS]
  have hiter : ∀ st' : LoopState, st'.messages ≠ unknownFailMsg →
      iterate st' (unknownOutcome name) d =
        ({ timestamp := PyVal.vInt 111, messages := "" },
          send_message d unknownFailMsg) := by
    intro st' hm'
    have h2 := iterate_error_parse st' (unknownOutcome name) d
      [("homeworks", PyVal.vList [unknownRecord name]),
        ("current_date", PyVal.vInt 111)]
      (unknownRecord name) [] _ rfl rfl hps
    rw [h2]
    have hdg : dictGetD
        [("homeworks", PyVal.vList [unknownRecord name]),
          ("current_date", PyVal.vInt 111)] "current_date" st'.timestamp =
        PyVal.vInt 111 := rfl
    rw [hdg]
    have hmsg : "Сбой в работе программы: " ++
        errStr (PyError.keyError "Получен неожиданный статус домашней работы!") =
        unknownFailMsg := rfl
    simp only [handleError, hmsg]
    rw [if_neg (by simpa using hm')]
  refine ⟨hps, ?_⟩
  induction n generalizing st with
  | zero =>
    simp only [List.replicate, run]
    rw [hiter st hm]
    simp [send_message_filter]
  | succ k ih =>
    have hnext : ({ timestamp := PyVal.vInt 111, messages := "" } : LoopState).messages ≠
        unknownFailMsg := by decide
    rw [List.replicate_succ, run, hiter st hm]
    simp only [List.map_cons, send_message_filter]
    rw [ih { timestamp := PyVal.vInt 111, messages := "" } hnext,
      List.replicate_succ [Event.sendAttempt unknownFailMsg] (k + 1)]

/-- C1 witness: two iterations over the unknown-status outcome, starting from
the empty register: the error is raised and both iterations attempt the same
failure notification. -/
theorem C1_repeated_error_witness :
    parse_status (unknownRecord "X") =
      Except.error (PyError.keyError "Получен неожиданный статус домашней работы!") ∧
    (run st0 (List.replicate 2 (unknownOutcome "X", SendOutcome.sent))).2.map
        (fun evs => evs.filter isSendEvent) =
      List.replicate 2 [Event.sendAttempt unknownFailMsg] :=
  C1_repeated_error "X" st0 SendOutcome.sent 1 (by decide) (by decide)

/-- C2: on the success path, across consecutive iterations that all derive the
same message (for instance the fixed "no updates" string for an empty
homeworks list), delivery is attempted at most once; and in one iteration,
delivery is attempted exactly when the derived message differs from the dedup
register, which afterwards holds the derived message. -/
theorem C2_dedup (st : LoopState) (inputs : List (HttpOutcome × SendOutcome))
    (m : String) (h : ∀ p ∈ inputs, successMessage p.1 = some m) :
    sendCount (run st inputs).2 ≤ 1 ∧
    ∀ o d, successMessage o = some m →
      (iterate st o d).2.filter isSendEvent =
        (if st.messages = m then [] else [Event.sendAttempt m]) ∧
      (iterate st o d).1.messages = m := by
  constructor
  · cases inputs with
    | nil => simp [run, sendCount]
    | cons p rest =>
      cases p with | mk o d =>
      have h1 := iterate_success st o d m (h _ (List.mem_cons_self _ _))
      have h2 : ∀ q ∈ rest, successMessage q.1 = some m :=
        fun q hq => h q (List.mem_cons_of_mem _ hq)
      simp only [run, sendCount_cons]
      rw [run_success_zero m _ rest h1.1 h2, h1.2]
      by_cases he : st.messages = m <;> simp [he]
  · intro o d ho
    exact ⟨(iterate_success st o d m ho).2, (iterate_success st o d m ho).1⟩

/-- C2 witness: three consecutive empty-homeworks iterations deliver the fixed
"no updates" string at most once. -/
theorem C2_dedup_witness :
    sendCount (run st0 [(emptyOutcome, SendOutcome.sent),
      (emptyOutcome, SendOutcome.sent), (emptyOutcome, SendOutcome.sent)]).2 ≤ 1 :=
  (C2_dedup st0 [(emptyOutcome, SendOutcome.sent), (emptyOutcome, SendOutcome.sent),
      (emptyOutcome, SendOutcome.sent)] updateMessage (by
    intro p hp
    simp only [List.mem_cons, List.not_mem_nil, or_false] at hp
    rcases hp with rfl | rfl | rfl <;> rfl)).1

/-- C3: after a successful fetch-and-validate the cursor becomes the body's
`current_date` value when that key is present and keeps its prior value when
it is absent; when the fetch or the validation fails, the cursor is
unchanged. -/
theorem C3_cursor (st : LoopState) (o : HttpOutcome) (d : SendOutcome) :
    (∀ fs, fetchValidate o = Except.ok (PyVal.vDict fs) →
      (∀ v, lookupField fs "current_date" = some v →
          (iterate st o d).1.timestamp = v) ∧
      (lookupField fs "current_date" = Option.none →
          (iterate st o d).1.timestamp = st.timestamp)) ∧
    (∀ e, fetchValidate o = Except.error e →
        (iterate st o d).1.timestamp = st.timestamp) := by
  constructor
  · intro fs hok
    cases hga : get_api_answer o with
    | error e => simp [fetchValidate, hga] at hok
    | ok response =>
      cases hcr : check_response response with
      | error e => simp [fetchValidate, hga, hcr] at hok
      | ok hws =>
        have hresp : response = PyVal.vDict fs := by
          simpa [fetchValidate, hga, hcr] using hok
        subst hresp
        have ht := iterate_timestamp_ok st o d fs hws hga hcr
        constructor
        · intro v hv; rw [ht]; simp [dictGetD, hv]
        · intro hv; rw [ht]; simp [dictGetD, hv]
  · intro e herr
    cases hga : get_api_answer o with
    | error e2 =>
      rw [iterate_error_fetch st o d e2 hga, handleError_timestamp]
    | ok response =>
      cases hcr : check_response response with
      | error e2 =>
        rw [iterate_error_check st o d response e2 hga hcr, handleError_timestamp]
      | ok hws => simp [fetchValidate, hga, hcr] at herr

/-- C3 witness: a successful empty-homeworks response carrying
`current_date = 7` moves the cursor to `7`. -/
theorem C3_cursor_witness :
    (iterate st0 emptyOutcome SendOutcome.sent).1.timestamp = PyVal.vInt 7 :=
  ((C3_cursor st0 emptyOutcome SendOutcome.sent).1
      [("homeworks", PyVal.vList []), ("current_date", PyVal.vInt 7)] rfl).1
    (PyVal.vInt 7) rfl

/-- C6: a response with a status code other than 200 raises the typed
bad-status `HTTPError` whose message carries the code, the response text and
the headers; the iteration catches it in the loop-level error branch, and
every later iteration of the trace still runs — the loop does not
terminate. -/
theorem C6_bad_status (code : Nat) (text headers : String) (body : PyVal)
    (hcode : code ≠ 200) (st : LoopState) (d : SendOutcome)
    (rest : List (HttpOutcome × SendOutcome)) :
    get_api_answer (HttpOutcome.resp code text headers body) =
      Except.error (PyError.httpError
        ("Получен код, отличный от 200: " ++ toString code ++ ". " ++
         "Текст ответа: " ++ text ++ ", " ++
         "Заголовок ответа: " ++ headers ++ ", ")) ∧
    (∀ e, get_api_answer (HttpOutcome.resp code text headers body) =
        Except.error e →
      iterate st (HttpOutcome.resp code text headers body) d = handleError st d e) ∧
    (run st ((HttpOutcome.resp code text headers body, d) :: rest)).2.length =
      rest.length + 1 := by
  refine ⟨?_, ?_, ?_⟩
  · simp [get_api_answer, hcode]
  · intro e he
    exact iterate_error_fetch st _ d e he
  · rw [run_length]
    rfl

/-- C6 witness: a 503 response raises `HTTPError` carrying 503 with the body
text and headers, and the one-element trace still runs its single
iteration. -/
theorem C6_bad_status_witness :
    get_api_answer (HttpOutcome.resp 503 "b" "h" PyVal.vNone) =
      Except.error (PyError.httpError
        "Получен код, отличный от 200: 503. Текст ответа: b, Заголовок ответа: h, ") ∧
    (run st0 [(HttpOutcome.resp 503 "b" "h" PyVal.vNone, SendOutcome.sent)]).2.length =
      1 := by
  have h := C6_bad_status 503 "b" "h" PyVal.vNone (by decide) st0 SendOutcome.sent []
  exact ⟨by rw [h.1]; rfl, by simpa using h.2.2⟩

/-- C8: when fetch and validation succeed and the body carries `current_date`,
the cursor is advanced to it before the first record is parsed, so a parse
failure runs the error branch with the already-advanced cursor — it is not
rolled back. -/
theorem C8_cursor_advanced (st : LoopState) (o : HttpOutcome) (d : SendOutcome)
    (fs : List (String × PyVal)) (hw : PyVal) (rest : List PyVal)
    (v : PyVal) (e : PyError)
    (hga : get_api_answer o = Except.ok (PyVal.vDict fs))
    (hcr : check_response (PyVal.vDict fs) = Except.ok (hw :: rest))
    (hcd : lookupField fs "current_date" = some v)
    (hps : parse_status hw = Except.error e) :
    (iterate st o d).1.timestamp = v ∧
    iterate st o d = handleError { st with timestamp := v } d e := by
  have hd : dictGetD fs "current_date" st.timestamp = v := by simp [dictGetD, hcd]
  have h2 := iterate_error_parse st o d fs hw rest e hga hcr hps
  rw [hd] at h2
  exact ⟨by rw [h2, handleError_timestamp], h2⟩

/-- C8 witness: an unknown-status record with `current_date = 111` leaves the
cursor at `111` although the iteration errored. -/
theorem C8_cursor_advanced_witness :
    (iterate st0 (unknownOutcome "X") SendOutcome.sent).1.timestamp =
      PyVal.vInt 111 :=
  (C8_cursor_advanced st0 (unknownOutcome "X") SendOutcome.sent
    [("homeworks", PyVal.vList [unknownRecord "X"]), ("current_date", PyVal.vInt 111)]
    (unknownRecord "X") [] (PyVal.vInt 111)
    (PyError.keyError "Получен неожиданный статус домашней работы!")
    rfl rfl rfl rfl).1

/-- C9: on the success path the dedup register receives the derived message
whether or not delivery succeeds (the send swallows `TelegramError` and the
iteration's state does not depend on the delivery outcome), exactly one
delivery attempt happens, and after a failed delivery the next iteration that
derives the identical message attempts no delivery — the undelivered message
is never retried. -/
theorem C9_no_retry (st : LoopState) (o o2 : HttpOutcome) (d d2 : SendOutcome)
    (m : String) (h1 : successMessage o = some m) (h2 : successMessage o2 = some m)
    (hne : st.messages ≠ m) :
    (iterate st o d).1.messages = m ∧
    (iterate st o d).1 = (iterate st o SendOutcome.sent).1 ∧
    (iterate st o d).2.filter isSendEvent = [Event.sendAttempt m] ∧
    (d = SendOutcome.telegramError →
      (iterate (iterate st o d).1 o2 d2).2.filter isSendEvent = []) := by
  have hs := iterate_success st o d m h1
  refine ⟨hs.1, iterate_fst st o d SendOutcome.sent, ?_, ?_⟩
  · rw [hs.2, if_neg hne]
  · intro hd
    have hs2 := iterate_success (iterate st o d).1 o2 d2 m h2
    rw [hs2.2, if_pos hs.1]

/-- C9 witness: the "no updates" message fails to deliver, yet the register
holds it and the following identical iteration attempts nothing. -/
theorem C9_no_retry_witness :
    (iterate st0 emptyOutcome SendOutcome.telegramError).1.messages =
      updateMessage ∧
    (iterate (iterate st0 emptyOutcome SendOutcome.telegramError).1
        emptyOutcome SendOutcome.sent).2.filter isSendEvent = [] := by
  have h := C9_no_retry st0 emptyOutcome emptyOutcome SendOutcome.telegramError
    SendOutcome.sent updateMessage rfl rfl (by decide)
  exact ⟨h.1, h.2.2.2 rfl⟩

/-- C10 witness: `homework_name` bound to the falsy `0`, and `status` bound to
the falsy `False`, each raise the corresponding missing-key error. -/
theorem C10_truthiness_witness :
    parse_status (PyVal.vDict [("homework_name", PyVal.vInt 0)]) =
      Except.error (PyError.keyError "Отсутствует ключ названия домашней работы!") ∧
    parse_status (PyVal.vDict
        [("homework_name", PyVal.vStr "X"), ("status", PyVal.vBool false)]) =
      Except.error (PyError.keyError "Не найден ключ статуса домашней работы!") :=
  ⟨(C10_truthiness [("homework_name", PyVal.vInt 0)]).1.1
      (PyVal.vInt 0) rfl rfl,
    (C10_truthiness
        [("homework_name", PyVal.vStr "X"), ("status", PyVal.vBool false)]).2.1
      (PyVal.vStr "X") (PyVal.vBool false) rfl rfl rfl rfl⟩

end HomeworkBot
